import Mathlib

/-!
Shallow embedding of `src/downloadOneDriveFolder.py`.

The program searches OneDrive for a folder by name and webUrl and recursively
downloads its contents.  We embed the orchestration logic: the search-result
scan of `search_and_download` (lines 67-83), the recursive traversal of
`download_folder` (lines 36-46), the single-file write of `download_file`
(lines 28-34), and the outer try/except plus the `run` driver (lines 48-86,
112-120).  Remote collaborators (Graph search, children listing, content
retrieval) are parameters: a search result value, and per-node
listing/content outcomes baked into the remote tree.  The local filesystem is
explicit state: a set of existing directories and a list of file writes,
most recent first, mirroring `open(..., 'wb')` overwrite semantics.
-/

set_option autoImplicit false

namespace OneDrive

/-- A local path, as the list of components joined by `os.path.join`. -/
abbrev Path := List String

/-- Byte content of a remote file. -/
abbrev Bytes := List Nat

/-- `hit.resource` as used by `search_and_download`: name, webUrl, item id and
`parent_reference.drive_id`.  The id fields are `Option String` because the
Graph SDK may deliver `None`, which the code's truthiness test treats like the
empty string. -/
structure Resource where
  name : String
  web_url : String
  id : Option String
  drive_id : Option String
deriving DecidableEq, Repr

/-- One `hit_container` of a search response (its `hits` list). -/
structure HitContainer where
  hits : List Resource
deriving DecidableEq, Repr

/-- One `search_response` in `result.value` (its `hits_containers` list). -/
structure SearchResponse where
  hits_containers : List HitContainer
deriving DecidableEq, Repr

/-- The search result object: `result.value`. -/
structure SearchResult where
  value : List SearchResponse
deriving DecidableEq, Repr

/-- The local filesystem state: the set of directories that exist, and the
files written, most recent write first. -/
structure FS where
  dirs : List Path
  files : List (Path × Bytes)
deriving DecidableEq, Repr

/-- All nonempty prefixes of a path: the directories `os.makedirs` ensures. -/
def ancestors : Path → List Path
  | [] => []
  | s :: rest => [s] :: (ancestors rest).map (fun q => s :: q)

/-- `os.makedirs(p, exist_ok=True)`: creates `p` and every missing ancestor;
never fails. -/
def FS.mkdirs (fs : FS) (p : Path) : FS :=
  { fs with dirs := ancestors p ++ fs.dirs }

/-- Look a path up in a write list (first entry wins, i.e. newest write). -/
def lookupIn : List (Path × Bytes) → Path → Option Bytes
  | [], _ => none
  | e :: rest, p => if e.1 = p then some e.2 else lookupIn rest p

/-- Content of the file at `p`, if any. -/
def FS.lookupFile (fs : FS) (p : Path) : Option Bytes :=
  lookupIn fs.files p

/-- `open(file_path, 'wb')` followed by a full write: succeeds iff the parent
directory exists (otherwise Python raises FileNotFoundError); overwrites any
previous content at that path. -/
def FS.writeFile (fs : FS) (p : Path) (c : Bytes) : Option FS :=
  if p.dropLast ∈ fs.dirs then some { fs with files := (p, c) :: fs.files } else none

/-- A child descriptor as `download_folder` sees it.  `file` carries the bytes
its `content.get()` returns; `badFile` is a child whose content retrieval
raises; `folder` carries the children its own listing returns; `badFolder` is
a folder child whose children listing raises; `other` is a child with neither
the folder nor the file discriminator set (the `if`/`elif` chain falls
through). -/
inductive Entry where
  | file (name : String) (content : Bytes)
  | badFile (name : String) (err : String)
  | folder (name : String) (children : List Entry)
  | badFolder (name : String) (err : String)
  | other (name : String)
deriving Repr

/-- `download_file` (lines 28-34): retrieve the content (already resolved in
the node), then write it under `directory_path`.  Returns the new state and
the raised error, if any. -/
def download_file (content : Bytes) (filename : String) (directory_path : Path)
    (fs : FS) : FS × Option String :=
  match fs.writeFile (directory_path ++ [filename]) content with
  | some fs1 => (fs1, none)
  | none => (fs, some "FileNotFoundError")

mutual

/-- The loop body of `download_folder` (lines 40-46) for one child: a folder
child gets `os.makedirs` on `parent/name` and a recursive descent; a file
child goes through content retrieval and `download_file`; a child with
neither discriminator is skipped. -/
def downloadItem : Entry → Path → FS → FS × Option String
  | Entry.file name c, parent, fs => download_file c name parent fs
  | Entry.badFile _ e, _, fs => (fs, some e)
  | Entry.folder name children, parent, fs =>
    downloadChildren children (parent ++ [name]) (fs.mkdirs (parent ++ [name]))
  | Entry.badFolder name e, parent, fs => (fs.mkdirs (parent ++ [name]), some e)
  | Entry.other _, _, fs => (fs, none)

/-- The `for item in items.value` loop of `download_folder`: process each
child in listing order; the first raised error aborts the rest of the
iteration and propagates, leaving the filesystem as it was at the raise. -/
def downloadChildren : List Entry → Path → FS → FS × Option String
  | [], _, fs => (fs, none)
  | item :: rest, parent, fs =>
    match downloadItem item parent fs with
    | (fs1, none) => downloadChildren rest parent fs1
    | (fs1, some e) => (fs1, some e)

end

/-- `download_folder` (lines 36-46): list the children of the folder (the
listing call may raise), then process them in order.  Note that it never
creates `parent_directory` itself. -/
def download_folder (listing : Except String (List Entry)) (parent_directory : Path)
    (fs : FS) : FS × Option String :=
  match listing with
  | Except.error e => (fs, some e)
  | Except.ok items => downloadChildren items parent_directory fs

/-- Python truthiness of the matched id variables (`None` and `""` are falsy). -/
def truthy : Option String → Bool
  | none => false
  | some s => s ≠ ""

/-- The match test of line 75: `hit.resource.name == folder_name and
hit.resource.web_url == web_url`. -/
def matchesQuery (folder_name web_url : String) (h : Resource) : Bool :=
  h.name = folder_name && h.web_url = web_url

/-- The body of the innermost loop of lines 73-78: on a match, assign
`(folder_item_id, drive_id)` from the hit; otherwise keep the accumulator. -/
def scanStep (folder_name web_url : String) (acc : Option String × Option String)
    (h : Resource) : Option String × Option String :=
  if matchesQuery folder_name web_url h then (h.id, h.drive_id) else acc

/-- The triple loop of lines 71-78: scan every hit of every container of every
response, starting from `(None, None)`.  There is no `break`, so a later match
overwrites an earlier one. -/
def locate (folder_name web_url : String) (result : SearchResult) :
    Option String × Option String :=
  result.value.foldl (fun acc sr =>
    sr.hits_containers.foldl (fun acc hc =>
      hc.hits.foldl (scanStep folder_name web_url) acc)
      acc)
    (none, none)

/-- Observable outcome of one `search_and_download` call: the final local
state, the error caught and printed by the `except` clause (if any), whether
the no-match message was printed, and whether `download_folder` was invoked. -/
structure SDOutcome where
  fs : FS
  caught : Option String
  noMatchMsg : Bool
  downloaded : Bool
deriving DecidableEq, Repr

/-- `search_and_download` (lines 48-86): issue the search (which may raise),
scan the hits, and if both matched ids are truthy download the folder under
`download_path/folder_name`; every exception raised anywhere inside —
including by `download_folder` — is caught and printed by the `except` clause
at lines 85-86, so the call itself never propagates an error. -/
def search_and_download (folder_name web_url : String) (download_path : Path)
    (search : Except String SearchResult)
    (folderOf : String → String → Except String (List Entry))
    (fs : FS) : SDOutcome :=
  match search with
  | Except.error e => ⟨fs, some e, false, false⟩
  | Except.ok result =>
    let ids := locate folder_name web_url result
    if truthy ids.1 && truthy ids.2 then
      match download_folder (folderOf (ids.2.getD "") (ids.1.getD ""))
          (download_path ++ [folder_name]) fs with
      | (fs1, err) => ⟨fs1, err, false, true⟩
    else
      ⟨fs, none, true, false⟩

/-- `OneDriveSearchDownloadApp.run` (lines 112-120) plus process exit: an
uncaught exception from `authenticate` (raised by the downloader constructor)
aborts the interpreter with exit code 1 and a printed traceback; otherwise
`search_and_download` runs to completion (it catches its own errors) and the
process exits 0. -/
def appRun (auth : Except String Unit) (folder_name web_url : String)
    (download_path : Path) (search : Except String SearchResult)
    (folderOf : String → String → Except String (List Entry))
    (fs : FS) : Nat × FS :=
  match auth with
  | Except.error _ => (1, fs)
  | Except.ok _ =>
    (0, (search_and_download folder_name web_url download_path search folderOf fs).fs)

/-- All hits of a search result, in nested iteration order. -/
def allHits (result : SearchResult) : List Resource :=
  result.value.flatMap (fun sr => sr.hits_containers.flatMap (fun hc => hc.hits))

/-- The last hit in nested iteration order matching both name and webUrl. -/
def lastMatch (folder_name web_url : String) (result : SearchResult) : Option Resource :=
  ((allHits result).filter (matchesQuery folder_name web_url)).getLast?

/-- The content a write list leaves at `p`: the last entry for `p`, if any. -/
def lastWrite : List (Path × Bytes) → Path → Option Bytes
  | [], _ => none
  | e :: rest, p =>
    match lastWrite rest p with
    | some c => some c
    | none => if e.1 = p then some e.2 else none

mutual

/-- The file writes one child contributes, with their target paths, in the
order the traversal performs them. -/
def itemFiles : Entry → Path → List (Path × Bytes)
  | Entry.file n c, parent => [(parent ++ [n], c)]
  | Entry.folder n c, parent => treeFiles c (parent ++ [n])
  | _, _ => []

/-- The file writes a child listing contributes, in traversal order. -/
def treeFiles : List Entry → Path → List (Path × Bytes)
  | [], _ => []
  | e :: rest, parent => itemFiles e parent ++ treeFiles rest parent

end

mutual

/-- Two children have the same shape: same discriminators and names, with
possibly different file contents (a later snapshot of the same remote tree). -/
def sameShapeItem : Entry → Entry → Bool
  | Entry.file n _, Entry.file n' _ => n = n'
  | Entry.folder n c, Entry.folder n' c' => n = n' && sameShape c c'
  | Entry.other n, Entry.other n' => n = n'
  | _, _ => false

/-- Two child listings have the same shape, pointwise. -/
def sameShape : List Entry → List Entry → Bool
  | [], [] => true
  | a :: r, b :: r' => sameShapeItem a b && sameShape r r'
  | _, _ => false

end

end OneDrive

namespace OneDrive

theorem getLast?_cons_match {α : Type} (a : α) (l : List α) :
    (a :: l).getLast? =
      match l.getLast? with
      | some x => some x
      | none => some a := by
  induction l generalizing a with
  | nil => rfl
  | cons b t ih =>
    rw [List.getLast?_cons_cons, ih b]
    cases h : t.getLast? <;> simp

theorem foldl_scanStep (fn wu : String) (l : List Resource) :
    ∀ acc, l.foldl (scanStep fn wu) acc =
      match (l.filter (matchesQuery fn wu)).getLast? with
      | some h => (h.id, h.drive_id)
      | none => acc := by
  induction l with
  | nil => intro acc; rfl
  | cons h t ih =>
    intro acc
    rw [List.foldl_cons, ih, List.filter_cons]
    by_cases hm : matchesQuery fn wu h = true
    · rw [if_pos hm, getLast?_cons_match]
      cases hl : (t.filter (matchesQuery fn wu)).getLast? <;> simp [scanStep, hm]
    · rw [if_neg hm]
      cases hl : (t.filter (matchesQuery fn wu)).getLast? <;>
        simp [scanStep, hm, hl]

theorem foldl_flatMap {α β γ : Type} (f : α → List β) (g : γ → β → γ) (l : List α) :
    ∀ acc : γ, l.foldl (fun acc x => (f x).foldl g acc) acc = (l.flatMap f).foldl g acc := by
  induction l with
  | nil => intro acc; rfl
  | cons a t ih =>
    intro acc
    rw [List.foldl_cons, List.flatMap_cons, List.foldl_append, ih]

theorem locate_eq_scan (fn wu : String) (r : SearchResult) :
    locate fn wu r = (allHits r).foldl (scanStep fn wu) (none, none) := by
  unfold locate allHits
  rw [← foldl_flatMap]
  congr 1
  funext acc sr
  exact foldl_flatMap (fun hc => hc.hits) (scanStep fn wu) sr.hits_containers acc

theorem locate_char (fn wu : String) (r : SearchResult) :
    locate fn wu r =
      match lastMatch fn wu r with
      | some h => (h.id, h.drive_id)
      | none => (none, none) := by
  rw [locate_eq_scan, foldl_scanStep]
  rfl

end OneDrive

namespace OneDrive

theorem writeFile_dirs (fs : FS) (p : Path) (c : Bytes) (fs' : FS)
    (h : fs.writeFile p c = some fs') : fs'.dirs = fs.dirs := by
  unfold FS.writeFile at h
  by_cases hm : p.dropLast ∈ fs.dirs
  · rw [if_pos hm] at h
    cases h
    rfl
  · rw [if_neg hm] at h
    cases h

theorem writeFile_parent_mem (fs : FS) (p : Path) (c : Bytes) (fs' : FS)
    (h : fs.writeFile p c = some fs') : p.dropLast ∈ fs.dirs := by
  unfold FS.writeFile at h
  by_cases hm : p.dropLast ∈ fs.dirs
  · exact hm
  · rw [if_neg hm] at h
    cases h

theorem writeFile_of_parent_mem (fs : FS) (p : Path) (c : Bytes)
    (h : p.dropLast ∈ fs.dirs) :
    fs.writeFile p c = some { fs with files := (p, c) :: fs.files } := by
  unfold FS.writeFile
  rw [if_pos h]

theorem mkdirs_files (fs : FS) (p : Path) : (fs.mkdirs p).files = fs.files := rfl

theorem mkdirs_lookupFile (fs : FS) (q p : Path) :
    (fs.mkdirs q).lookupFile p = fs.lookupFile p := rfl

theorem mkdirs_dirs_mono (fs : FS) (q d : Path) (hd : d ∈ fs.dirs) :
    d ∈ (fs.mkdirs q).dirs :=
  List.mem_append_right _ hd

theorem download_file_dirs (c : Bytes) (n : String) (parent : Path) (fs : FS) :
    (download_file c n parent fs).1.dirs = fs.dirs := by
  unfold download_file
  cases h : fs.writeFile (parent ++ [n]) c with
  | some fs1 => simpa using writeFile_dirs _ _ _ _ h
  | none => rfl

mutual

theorem downloadItem_dirs_mono (e : Entry) (parent : Path) (fs : FS) (d : Path)
    (hd : d ∈ fs.dirs) : d ∈ (downloadItem e parent fs).1.dirs := by
  cases e with
  | file n c =>
    show d ∈ (download_file c n parent fs).1.dirs
    rw [download_file_dirs]
    exact hd
  | badFile n er => exact hd
  | folder n c =>
    exact downloadChildren_dirs_mono c (parent ++ [n]) (fs.mkdirs (parent ++ [n])) d
      (mkdirs_dirs_mono fs _ d hd)
  | badFolder n er => exact mkdirs_dirs_mono fs _ d hd
  | other n => exact hd

theorem downloadChildren_dirs_mono (l : List Entry) (parent : Path) (fs : FS) (d : Path)
    (hd : d ∈ fs.dirs) : d ∈ (downloadChildren l parent fs).1.dirs := by
  cases l with
  | nil => exact hd
  | cons item rest =>
    have h1 := downloadItem_dirs_mono item parent fs d hd
    show d ∈ (match downloadItem item parent fs with
      | (fs1, none) => downloadChildren rest parent fs1
      | (fs1, some e) => (fs1, some e)).1.dirs
    cases he : downloadItem item parent fs with
    | mk fs1 err =>
      rw [he] at h1
      cases err with
      | none => exact downloadChildren_dirs_mono rest parent fs1 d h1
      | some e => exact h1

end

end OneDrive

namespace OneDrive

theorem downloadChildren_cons (a : Entry) (r : List Entry) (parent : Path) (fs : FS) :
    downloadChildren (a :: r) parent fs =
      match downloadItem a parent fs with
      | (fs1, none) => downloadChildren r parent fs1
      | (fs1, some e) => (fs1, some e) := rfl

theorem download_file_rerun (c c' : Bytes) (n : String) (parent : Path) (fs fs' : FS)
    (h1 : (download_file c n parent fs).2 = none)
    (hsub : ∀ d, d ∈ fs.dirs → d ∈ fs'.dirs) :
    (download_file c' n parent fs').2 = none ∧
      ∀ d, d ∈ (download_file c n parent fs).1.dirs →
        d ∈ (download_file c' n parent fs').1.dirs := by
  unfold download_file at h1 ⊢
  cases hw : fs.writeFile (parent ++ [n]) c with
  | none => rw [hw] at h1; simp at h1
  | some fs1 =>
    have hp := writeFile_parent_mem _ _ _ _ hw
    have hp' := hsub _ hp
    rw [writeFile_of_parent_mem fs' (parent ++ [n]) c' hp']
    refine ⟨rfl, fun d hd => ?_⟩
    have hd1 : d ∈ fs1.dirs := hd
    have hd' : d ∈ fs.dirs := by
      rw [← writeFile_dirs _ _ _ _ hw]
      exact hd1
    exact hsub d hd'

mutual

theorem downloadItem_rerun (a b : Entry) (parent : Path) (fs fs' : FS)
    (hs : sameShapeItem a b = true)
    (h1 : (downloadItem a parent fs).2 = none)
    (hsub : ∀ d, d ∈ fs.dirs → d ∈ fs'.dirs) :
    (downloadItem b parent fs').2 = none ∧
      ∀ d, d ∈ (downloadItem a parent fs).1.dirs →
        d ∈ (downloadItem b parent fs').1.dirs := by
  cases a with
  | file n c =>
    cases b with
    | file n' c' =>
      have hn : n = n' := by simpa [sameShapeItem] using hs
      subst hn
      exact download_file_rerun c c' n parent fs fs' h1 hsub
    | badFile n' e' => simp [sameShapeItem] at hs
    | folder n' c' => simp [sameShapeItem] at hs
    | badFolder n' e' => simp [sameShapeItem] at hs
    | other n' => simp [sameShapeItem] at hs
  | badFile n e => simp [downloadItem] at h1
  | folder n c =>
    cases b with
    | file n' c' => simp [sameShapeItem] at hs
    | badFile n' e' => simp [sameShapeItem] at hs
    | folder n' c' =>
      have hn : n = n' ∧ sameShape c c' = true := by simpa [sameShapeItem] using hs
      obtain ⟨hn1, hsh⟩ := hn
      subst hn1
      exact downloadChildren_rerun c c' (parent ++ [n]) (fs.mkdirs (parent ++ [n]))
        (fs'.mkdirs (parent ++ [n])) hsh h1
        (fun d hd => by
          simp only [FS.mkdirs] at hd ⊢
          rcases List.mem_append.mp hd with h | h
          · exact List.mem_append_left _ h
          · exact List.mem_append_right _ (hsub d h))
    | badFolder n' e' => simp [sameShapeItem] at hs
    | other n' => simp [sameShapeItem] at hs
  | badFolder n e => simp [downloadItem] at h1
  | other n =>
    cases b with
    | file n' c' => simp [sameShapeItem] at hs
    | badFile n' e' => simp [sameShapeItem] at hs
    | folder n' c' => simp [sameShapeItem] at hs
    | badFolder n' e' => simp [sameShapeItem] at hs
    | other n' => exact ⟨rfl, fun d hd => hsub d hd⟩

theorem downloadChildren_rerun (l l₂ : List Entry) (parent : Path) (fs fs' : FS)
    (hs : sameShape l l₂ = true)
    (h1 : (downloadChildren l parent fs).2 = none)
    (hsub : ∀ d, d ∈ fs.dirs → d ∈ fs'.dirs) :
    (downloadChildren l₂ parent fs').2 = none ∧
      ∀ d, d ∈ (downloadChildren l parent fs).1.dirs →
        d ∈ (downloadChildren l₂ parent fs').1.dirs := by
  cases l with
  | nil =>
    cases l₂ with
    | nil => exact ⟨rfl, fun d hd => hsub d hd⟩
    | cons b r₂ => simp [sameShape] at hs
  | cons a r =>
    cases l₂ with
    | nil => simp [sameShape] at hs
    | cons b r₂ =>
      have hs' : sameShapeItem a b = true ∧ sameShape r r₂ = true := by
        simpa [sameShape] using hs
      obtain ⟨hsi, hsr⟩ := hs'
      cases hA : downloadItem a parent fs with
      | mk fsA errA =>
        cases errA with
        | some e =>
          rw [downloadChildren_cons, hA] at h1
          simp at h1
        | none =>
          have hA2 : (downloadItem a parent fs).2 = none := by rw [hA]
          obtain ⟨hB2, hBdirs⟩ := downloadItem_rerun a b parent fs fs' hsi hA2 hsub
          cases hB : downloadItem b parent fs' with
          | mk fsB errB =>
            rw [hB] at hB2
            cases errB with
            | some e => simp at hB2
            | none =>
              rw [hA, hB] at hBdirs
              rw [downloadChildren_cons, hA] at h1
              obtain ⟨hR2, hRdirs⟩ :=
                downloadChildren_rerun r r₂ parent fsA fsB hsr h1 hBdirs
              constructor
              · rw [downloadChildren_cons, hB]
                exact hR2
              · rw [downloadChildren_cons, hA, downloadChildren_cons, hB]
                exact hRdirs

end

end OneDrive

namespace OneDrive

theorem writeFile_files (fs : FS) (p : Path) (c : Bytes) (fs' : FS)
    (h : fs.writeFile p c = some fs') : fs'.files = (p, c) :: fs.files := by
  unfold FS.writeFile at h
  by_cases hm : p.dropLast ∈ fs.dirs
  · rw [if_pos hm] at h
    cases h
    rfl
  · rw [if_neg hm] at h
    cases h

theorem lastWrite_cons (e : Path × Bytes) (rest : List (Path × Bytes)) (p : Path) :
    lastWrite (e :: rest) p =
      match lastWrite rest p with
      | some c => some c
      | none => if e.1 = p then some e.2 else none := rfl

theorem lastWrite_append (a b : List (Path × Bytes)) (p : Path) :
    lastWrite (a ++ b) p =
      match lastWrite b p with
      | some c => some c
      | none => lastWrite a p := by
  induction a with
  | nil =>
    cases h : lastWrite b p <;> simp [lastWrite, h]
  | cons e t ih =>
    show lastWrite (e :: (t ++ b)) p = _
    rw [lastWrite_cons, ih, lastWrite_cons]
    cases h1 : lastWrite b p <;> cases h2 : lastWrite t p <;> simp

mutual

theorem downloadItem_files (a : Entry) (parent : Path) (fs fs₁ : FS)
    (h : downloadItem a parent fs = (fs₁, none)) (p : Path) :
    fs₁.lookupFile p =
      match lastWrite (itemFiles a parent) p with
      | some c => some c
      | none => fs.lookupFile p := by
  cases a with
  | file n c =>
    have h' : download_file c n parent fs = (fs₁, none) := h
    unfold download_file at h'
    cases hw : fs.writeFile (parent ++ [n]) c with
    | none =>
      rw [hw] at h'
      simp at h'
    | some fs1 =>
      rw [hw] at h'
      have h'' : (fs1, (none : Option String)) = (fs₁, none) := h'
      injection h'' with hfs _
      subst hfs
      have hfiles := writeFile_files _ _ _ _ hw
      show fs1.lookupFile p = _
      unfold FS.lookupFile
      rw [hfiles]
      by_cases hpp : (parent ++ [n]) = p
      · simp [itemFiles, lastWrite, lookupIn, hpp]
      · simp [itemFiles, lastWrite, lookupIn, hpp, FS.lookupFile]
  | badFile n e => simp [downloadItem] at h
  | folder n c =>
    have h' : downloadChildren c (parent ++ [n]) (fs.mkdirs (parent ++ [n])) = (fs₁, none) := h
    have hrec := downloadChildren_files c (parent ++ [n]) (fs.mkdirs (parent ++ [n])) fs₁ h' p
    have hit : itemFiles (Entry.folder n c) parent = treeFiles c (parent ++ [n]) := rfl
    rw [hrec, mkdirs_lookupFile, hit]
  | badFolder n e => simp [downloadItem] at h
  | other n =>
    have h'' : (fs, (none : Option String)) = (fs₁, none) := h
    injection h'' with hfs _
    subst hfs
    rfl

theorem downloadChildren_files (l : List Entry) (parent : Path) (fs fs₁ : FS)
    (h : downloadChildren l parent fs = (fs₁, none)) (p : Path) :
    fs₁.lookupFile p =
      match lastWrite (treeFiles l parent) p with
      | some c => some c
      | none => fs.lookupFile p := by
  cases l with
  | nil =>
    have h'' : (fs, (none : Option String)) = (fs₁, none) := h
    injection h'' with hfs _
    subst hfs
    rfl
  | cons a rest =>
    cases hA : downloadItem a parent fs with
    | mk fsA errA =>
      rw [downloadChildren_cons, hA] at h
      cases errA with
      | some e => simp at h
      | none =>
        have hrest : downloadChildren rest parent fsA = (fs₁, none) := h
        have hA' : downloadItem a parent fs = (fsA, none) := hA
        have ihA := downloadItem_files a parent fs fsA hA' p
        have ihR := downloadChildren_files rest parent fsA fs₁ hrest p
        have htf : treeFiles (a :: rest) parent = itemFiles a parent ++ treeFiles rest parent := rfl
        rw [ihR, htf, lastWrite_append]
        cases hR : lastWrite (treeFiles rest parent) p with
        | some cc => rfl
        | none => rw [ihA]

end

end OneDrive

namespace OneDrive

theorem downloadChildren_append (a b : List Entry) (parent : Path) (fs : FS) :
    downloadChildren (a ++ b) parent fs =
      match downloadChildren a parent fs with
      | (fs1, none) => downloadChildren b parent fs1
      | (fs1, some e) => (fs1, some e) := by
  induction a generalizing fs with
  | nil => rfl
  | cons item rest ih =>
    show downloadChildren (item :: (rest ++ b)) parent fs = _
    rw [downloadChildren_cons item (rest ++ b), downloadChildren_cons item rest]
    cases hI : downloadItem item parent fs with
    | mk fs1 err =>
      cases err with
      | none => exact ih fs1
      | some e => rfl

/-- Claim C1 counterexample: on a run where the children listing of the
matched folder raises ListingError, the error is caught and printed by
`search_and_download` itself and the process exits 0, contradicting the
claim that downloader errors exit nonzero. -/
theorem downloader_error_still_exits_zero :
    (search_and_download "A" "U" ["dl"]
        (Except.ok ⟨[⟨[⟨[⟨"A", "U", some "i", some "d"⟩]⟩]⟩]⟩)
        (fun _ _ => Except.error "ListingError") ⟨[["dl"]], []⟩).downloaded = true ∧
    (search_and_download "A" "U" ["dl"]
        (Except.ok ⟨[⟨[⟨[⟨"A", "U", some "i", some "d"⟩]⟩]⟩]⟩)
        (fun _ _ => Except.error "ListingError") ⟨[["dl"]], []⟩).caught
      = some "ListingError" ∧
    appRun (Except.ok ()) "A" "U" ["dl"]
        (Except.ok ⟨[⟨[⟨[⟨"A", "U", some "i", some "d"⟩]⟩]⟩]⟩)
        (fun _ _ => Except.error "ListingError") ⟨[["dl"]], []⟩
      = (0, ⟨[["dl"]], []⟩) :=
  ⟨rfl, rfl, rfl⟩

/-- Claim C1 (amended): only an uncaught authentication error exits nonzero;
whenever authentication succeeds the process exits 0 on every run — a no-match
run, a completed download, and also a run whose downloader raised, because
`search_and_download` catches and prints every error raised inside it. -/
theorem exit_zero_unless_auth_error (fn wu : String) (dp : Path)
    (search : Except String SearchResult)
    (folderOf : String → String → Except String (List Entry)) (fs : FS) :
    (appRun (Except.ok ()) fn wu dp search folderOf fs).1 = 0 ∧
    ∀ e, (appRun (Except.error e) fn wu dp search folderOf fs).1 = 1 :=
  ⟨rfl, fun _ => rfl⟩

/-- Claim C2 counterexample: with two exact matches in the search result, the
scan returns the ids of the second (last) one, not the first: the later match
overwrites the earlier. -/
theorem later_match_overwrites_earlier :
    locate "A" "U"
        ⟨[⟨[⟨[⟨"A", "U", some "1", some "d1"⟩, ⟨"A", "U", some "2", some "d2"⟩]⟩]⟩]⟩
      = (some "2", some "d2") ∧
    (allHits
        ⟨[⟨[⟨[⟨"A", "U", some "1", some "d1"⟩, ⟨"A", "U", some "2", some "d2"⟩]⟩]⟩]⟩).head?
      = some ⟨"A", "U", some "1", some "d1"⟩ ∧
    matchesQuery "A" "U" ⟨"A", "U", some "1", some "d1"⟩ = true ∧
    locate "A" "U"
        ⟨[⟨[⟨[⟨"A", "U", some "1", some "d1"⟩, ⟨"A", "U", some "2", some "d2"⟩]⟩]⟩]⟩
      ≠ (some "1", some "d1") := by
  refine ⟨rfl, rfl, rfl, by decide⟩

/-- Claim C2 (amended): at most one match is retained per run, namely the LAST
hit in nested iteration order whose name and web_url both equal the requested
values; a later exact match overwrites an earlier one (there is no break). -/
theorem locate_returns_last_match (fn wu : String) (r : SearchResult) :
    locate fn wu r =
      match lastMatch fn wu r with
      | some h => (h.id, h.drive_id)
      | none => (none, none) :=
  locate_char fn wu r

/-- Claim C3: if no hit matches both name and webUrl, the scan returns
`(None, None)`, the run prints the no-match message, and no download — no
children listing, content retrieval, or file write — is attempted: the
filesystem is returned unchanged. -/
theorem no_exact_match_returns_notfound (fn wu : String) (dp : Path) (r : SearchResult)
    (folderOf : String → String → Except String (List Entry)) (fs : FS)
    (h : ∀ hit ∈ allHits r, matchesQuery fn wu hit = false) :
    locate fn wu r = (none, none) ∧
    search_and_download fn wu dp (Except.ok r) folderOf fs = ⟨fs, none, true, false⟩ := by
  have hfilter : (allHits r).filter (matchesQuery fn wu) = [] :=
    List.filter_eq_nil_iff.mpr (fun x hx => by simp [h x hx])
  have hloc : locate fn wu r = (none, none) := by
    rw [locate_char]
    unfold lastMatch
    rw [hfilter]
    rfl
  refine ⟨hloc, ?_⟩
  simp only [search_and_download, hloc]
  rfl

/-- Witness for C3 at a concrete input: one hit that matches neither name nor
webUrl. -/
theorem no_exact_match_returns_notfound_witness :
    locate "A" "U" ⟨[⟨[⟨[⟨"B", "V", some "x", some "y"⟩]⟩]⟩]⟩ = (none, none) ∧
    search_and_download "A" "U" ["dl"]
        (Except.ok ⟨[⟨[⟨[⟨"B", "V", some "x", some "y"⟩]⟩]⟩]⟩)
        (fun _ _ => Except.ok []) ⟨[["dl"]], []⟩
      = ⟨⟨[["dl"]], []⟩, none, true, false⟩ :=
  no_exact_match_returns_notfound "A" "U" ["dl"] _ _ _ (by decide)

/-- Claim C4: if exactly one hit matches both name and webUrl, the scan
returns that hit's item id and parent drive id, wherever the hit sits in the
nested result structure. -/
theorem unique_match_returns_ids (fn wu : String) (r : SearchResult) (hit : Resource)
    (h : (allHits r).filter (matchesQuery fn wu) = [hit]) :
    locate fn wu r = (hit.id, hit.drive_id) := by
  rw [locate_char]
  unfold lastMatch
  rw [h]
  rfl

/-- Witness for C4 at a concrete input: the unique exact match sits between a
non-matching hit in its own container and a name-only match in a later
response. -/
theorem unique_match_returns_ids_witness :
    locate "A" "U"
        ⟨[⟨[⟨[⟨"B", "V", some "x", some "y"⟩, ⟨"A", "U", some "i7", some "d7"⟩]⟩]⟩,
          ⟨[⟨[⟨"A", "W", some "z", some "w"⟩]⟩]⟩]⟩
      = (some "i7", some "d7") :=
  unique_match_returns_ids "A" "U" _ ⟨"A", "U", some "i7", some "d7"⟩ (by decide)

/-- Claim C5 (code bug): with an empty child listing, `download_folder`
returns the filesystem unchanged: it writes zero files but also does NOT
create the local root directory `dl/A`, because no code path creates
`parent_directory` itself. -/
theorem empty_listing_creates_no_root_dir :
    download_folder (Except.ok []) ["dl", "A"] ⟨[["dl"]], []⟩ = (⟨[["dl"]], []⟩, none) ∧
    ¬ (["dl", "A"] ∈ (⟨[["dl"]], []⟩ : FS).dirs) ∧
    (⟨[["dl"]], []⟩ : FS).files = [] :=
  ⟨rfl, by decide, rfl⟩

/-- Claim C6 (code bug): for the tree `A/ (file f1, folder B/ (file f2))`
listed with `f1` first, downloading into a fresh destination raises
FileNotFoundError on `dl/A/f1` because `dl/A` was never created, so neither
`A/f1` nor `A/B/f2` is produced. -/
theorem root_level_file_write_raises :
    downloadChildren [Entry.file "f1" [1], Entry.folder "B" [Entry.file "f2" [2]]]
        ["dl", "A"] ⟨[["dl"]], []⟩
      = (⟨[["dl"]], []⟩, some "FileNotFoundError") ∧
    FS.lookupFile ⟨[["dl"]], []⟩ ["dl", "A", "f1"] = none ∧
    FS.lookupFile ⟨[["dl"]], []⟩ ["dl", "A", "B", "f2"] = none :=
  ⟨rfl, rfl, rfl⟩

end OneDrive

namespace OneDrive

/-- Claim C7: after a successful download, re-running the download of a
same-shaped remote tree (same names and discriminators, possibly updated file
contents) from the resulting state succeeds — directory creation is idempotent
and already-existing directories never fail — and every re-downloaded file
ends up holding the latest remote content (the last write the new tree
performs for its path). -/
theorem rerun_succeeds_and_overwrites (items items₂ : List Entry) (parent : Path)
    (fs fs₁ : FS)
    (hshape : sameShape items items₂ = true)
    (h1 : downloadChildren items parent fs = (fs₁, none)) :
    (downloadChildren items₂ parent fs₁).2 = none ∧
    ∀ p c, lastWrite (treeFiles items₂ parent) p = some c →
      ((downloadChildren items₂ parent fs₁).1).lookupFile p = some c := by
  have h12 : (downloadChildren items parent fs).2 = none := by rw [h1]
  have hsub : ∀ d, d ∈ fs.dirs → d ∈ fs₁.dirs := by
    intro d hd
    have hm := downloadChildren_dirs_mono items parent fs d hd
    rw [h1] at hm
    exact hm
  obtain ⟨h2, _⟩ := downloadChildren_rerun items items₂ parent fs fs₁ hshape h12 hsub
  refine ⟨h2, fun p c hlw => ?_⟩
  cases hres : downloadChildren items₂ parent fs₁ with
  | mk fs₂ err =>
    rw [hres] at h2
    cases err with
    | some e => simp at h2
    | none =>
      have hchar := downloadChildren_files items₂ parent fs₁ fs₂ hres p
      show fs₂.lookupFile p = some c
      rw [hchar, hlw]

/-- Witness for C7 at a concrete input: a one-file tree downloaded into an
existing root, then re-downloaded with updated content. -/
theorem rerun_succeeds_and_overwrites_witness :
    (downloadChildren [Entry.file "f1" [9]] ["dl", "A"]
        ⟨[["dl"], ["dl", "A"]], [(["dl", "A", "f1"], [1])]⟩).2 = none ∧
    ∀ p c, lastWrite (treeFiles [Entry.file "f1" [9]] ["dl", "A"]) p = some c →
      ((downloadChildren [Entry.file "f1" [9]] ["dl", "A"]
          ⟨[["dl"], ["dl", "A"]], [(["dl", "A", "f1"], [1])]⟩).1).lookupFile p = some c :=
  rerun_succeeds_and_overwrites [Entry.file "f1" [1]] [Entry.file "f1" [9]] ["dl", "A"]
    ⟨[["dl"], ["dl", "A"]], []⟩ ⟨[["dl"], ["dl", "A"]], [(["dl", "A", "f1"], [1])]⟩
    (by decide) (by decide)

/-- Claim C8: if the listing of a nested folder child raises after some
earlier siblings were processed successfully, the whole call returns that
error (it propagates to the caller) and the file writes performed for the
earlier siblings are left exactly as they were — no rollback. -/
theorem listing_failure_preserves_earlier_files (before after : List Entry)
    (n e : String) (parent : Path) (fs fs₁ : FS)
    (h : downloadChildren before parent fs = (fs₁, none)) :
    downloadChildren (before ++ Entry.badFolder n e :: after) parent fs
      = (fs₁.mkdirs (parent ++ [n]), some e) ∧
    (fs₁.mkdirs (parent ++ [n])).files = fs₁.files := by
  constructor
  · rw [downloadChildren_append, h]
    rfl
  · rfl

/-- Witness for C8 at a concrete input: sibling file f1 is downloaded, then
folder B's listing raises; f1's write survives and the error is returned. -/
theorem listing_failure_preserves_earlier_files_witness :
    downloadChildren
        ([Entry.file "f1" [1]] ++ Entry.badFolder "B" "ListingError" :: [Entry.file "f3" [3]])
        ["dl", "A"] ⟨[["dl"], ["dl", "A"]], []⟩
      = ((⟨[["dl"], ["dl", "A"]], [(["dl", "A", "f1"], [1])]⟩ : FS).mkdirs
          (["dl", "A"] ++ ["B"]), some "ListingError") ∧
    ((⟨[["dl"], ["dl", "A"]], [(["dl", "A", "f1"], [1])]⟩ : FS).mkdirs
        (["dl", "A"] ++ ["B"])).files
      = (⟨[["dl"], ["dl", "A"]], [(["dl", "A", "f1"], [1])]⟩ : FS).files :=
  listing_failure_preserves_earlier_files [Entry.file "f1" [1]] [Entry.file "f3" [3]]
    "B" "ListingError" ["dl", "A"] ⟨[["dl"], ["dl", "A"]], []⟩
    ⟨[["dl"], ["dl", "A"]], [(["dl", "A", "f1"], [1])]⟩ (by decide)

/-- Claim C9: a child with neither the folder nor the file discriminator
triggers no action at all — no directory creation, no content retrieval, no
file write, no error — and the loop continues with the remaining children
from an unchanged state. -/
theorem neither_facet_child_skipped (n : String) (rest : List Entry) (parent : Path)
    (fs : FS) :
    downloadItem (Entry.other n) parent fs = (fs, none) ∧
    downloadChildren (Entry.other n :: rest) parent fs = downloadChildren rest parent fs :=
  ⟨rfl, rfl⟩

/-- Claim C10 counterexample: when the FIRST exact match carries an empty item
id but a later exact match carries truthy ids, the later match overwrites the
first and the download IS attempted, with no no-match message — contradicting
the claim as stated over the first exact match. -/
theorem falsy_first_match_still_downloads :
    ((allHits
        ⟨[⟨[⟨[⟨"A", "U", some "", some "d"⟩, ⟨"A", "U", some "i2", some "d2"⟩]⟩]⟩]⟩).filter
        (matchesQuery "A" "U")).head? = some ⟨"A", "U", some "", some "d"⟩ ∧
    truthy (some "") = false ∧
    (search_and_download "A" "U" ["dl"]
        (Except.ok ⟨[⟨[⟨[⟨"A", "U", some "", some "d"⟩, ⟨"A", "U", some "i2", some "d2"⟩]⟩]⟩]⟩)
        (fun _ _ => Except.ok []) ⟨[["dl"]], []⟩).downloaded = true ∧
    (search_and_download "A" "U" ["dl"]
        (Except.ok ⟨[⟨[⟨[⟨"A", "U", some "", some "d"⟩, ⟨"A", "U", some "i2", some "d2"⟩]⟩]⟩]⟩)
        (fun _ _ => Except.ok []) ⟨[["dl"]], []⟩).noMatchMsg = false :=
  ⟨rfl, rfl, rfl, rfl⟩

/-- Claim C10 (amended): when the LAST exact match — the one whose identifiers
the scan finally retains — carries an empty or absent item id or parent drive
id, the truthiness guard fails, no download is attempted, and the run reports
that no matching folder was found, leaving the filesystem unchanged. -/
theorem falsy_retained_match_reports_no_match (fn wu : String) (dp : Path)
    (r : SearchResult) (folderOf : String → String → Except String (List Entry))
    (fs : FS) (hit : Resource)
    (hlast : lastMatch fn wu r = some hit)
    (hfalsy : truthy hit.id = false ∨ truthy hit.drive_id = false) :
    search_and_download fn wu dp (Except.ok r) folderOf fs = ⟨fs, none, true, false⟩ := by
  have hloc : locate fn wu r = (hit.id, hit.drive_id) := by
    rw [locate_char, hlast]
  have hcond : (truthy (locate fn wu r).1 && truthy (locate fn wu r).2) = false := by
    rw [hloc]
    cases hfalsy with
    | inl hf => simp [hf]
    | inr hf => simp [hf]
  simp only [search_and_download]
  rw [hcond]
  simp

/-- Witness for C10 (amended) at a concrete input: the only exact match has an
empty item id, so the run reports no match and downloads nothing. -/
theorem falsy_retained_match_reports_no_match_witness :
    search_and_download "A" "U" ["dl"]
        (Except.ok ⟨[⟨[⟨[⟨"A", "U", some "", some "d"⟩]⟩]⟩]⟩)
        (fun _ _ => Except.ok []) ⟨[["dl"]], []⟩
      = ⟨⟨[["dl"]], []⟩, none, true, false⟩ :=
  falsy_retained_match_reports_no_match "A" "U" ["dl"] _ _ _
    ⟨"A", "U", some "", some "d"⟩ (by decide) (by decide)

end OneDrive
